import Mathlib

/-!
# Outalator — Alert Ingestion & Historical Backfill: verification model

A shallow embedding of the ingestion/backfill core of the `outalator`
repository:

* `processAlert`, `processPage`, `runImportLoop` model
  `cmd/import-history/main.go` (`processAlert`, the per-alert loop and the
  paginated driver loop of `runImport`, and the summary step of `main`);
* `importAlert` models `Service.ImportAlert` in `internal/service/service.go`
  (the live single-alert import path);
* `Store` and its operations model the consumed store contract
  (`GetAlertByExternalID`, `CreateOutage`, `DeleteOutage`, `CreateAlert`)
  with the list-of-rows semantics of `internal/storage/postgres`;
* `fetchHistoricalAlerts` (OpsGenie) and `fetchHistoricalIncidents`
  (PagerDuty) model the decode → client-side team filter → normalize stage of
  the two provider adapters; the HTTP request/authentication stage is
  represented by the driver-level fetch error (`FetchResult.fetchErr`).

Modelling conventions: `time.Time` is a `Nat` tick; `uuid.New()` is modelled
by the deterministic fresh counter `Store.nextID` (uuids are opaque to the
code, only freshness matters); store-write failures are injected through a
`StoreFx` failure oracle; every call made to the store interface is recorded
in a `StoreOp` trace; the unbounded `for hasMore` loop of `runImport` is given
explicit fuel, `none` meaning the fuel ran out mid-loop.
-/

namespace Outalator

/-- Canonical provider-normalized alert (`internal/notification.Alert`). -/
structure CanonAlert where
  externalID : String
  source : String
  teamName : String
  title : String
  description : String
  severity : String
  triggeredAt : Nat
  acknowledgedAt : Option Nat
  resolvedAt : Option Nat
deriving DecidableEq

/-- Persisted outage aggregate (`internal/domain.Outage`, the fields the
ingestion core writes). -/
structure Outage where
  id : Nat
  title : String
  description : String
  status : String
  severity : String
  createdAt : Nat
  updatedAt : Nat
  resolvedAt : Option Nat
deriving DecidableEq

/-- Persisted alert row (`internal/domain.Alert`, the fields the ingestion
core writes). -/
structure DAlert where
  id : Nat
  outageID : Nat
  externalID : String
  source : String
  teamName : String
  title : String
  description : String
  severity : String
  triggeredAt : Nat
  acknowledgedAt : Option Nat
  resolvedAt : Option Nat
  createdAt : Nat
deriving DecidableEq

/-- The persistent store state: outage rows, alert rows, and the fresh-id
counter standing in for `uuid.New()`. -/
structure Store where
  outages : List Outage
  alerts : List DAlert
  nextID : Nat
deriving DecidableEq

/-- One call made to the store interface (recorded even when the call
fails). -/
inductive StoreOp where
  | getAlert (externalID source : String)
  | createOutage (o : Outage)
  | deleteOutage (id : Nat)
  | createAlert (a : DAlert)
deriving DecidableEq

/-- Failure oracle for the store writes and for a non-not-found error of the
existence lookup. -/
structure StoreFx where
  failGetAlert : String → String → Bool
  failCreateOutage : Outage → Bool
  failCreateAlert : DAlert → Bool

/-- The oracle under which every store call succeeds. -/
def noFail : StoreFx :=
  { failGetAlert := fun _ _ => false
    failCreateOutage := fun _ => false
    failCreateAlert := fun _ => false }

/-- `GetAlertByExternalID` of `internal/storage/postgres/alert.go`: the row
whose `(external_id, source)` matches, `none` standing for the
"alert not found" error. -/
def Store.getAlertByExternalID (st : Store) (externalID source : String) :
    Option DAlert :=
  st.alerts.find? (fun a => a.externalID == externalID && a.source == source)

/-- Identity key of a persisted alert row. -/
def dKey (a : DAlert) : String × String := (a.externalID, a.source)

/-- Identity key of a canonical alert. -/
def alertKey (a : CanonAlert) : String × String := (a.externalID, a.source)

/-- Import-run statistics (`ImportStats` of `cmd/import-history/main.go`). -/
structure ImportStats where
  totalFetched : Nat
  newOutages : Nat
  newAlerts : Nat
  skipped : Nat
  errors : Nat
deriving DecidableEq

/-- The all-zero statistics a run starts from. -/
def zeroStats : ImportStats :=
  { totalFetched := 0, newOutages := 0, newAlerts := 0, skipped := 0, errors := 0 }

/-- The outage `processAlert` builds for a not-yet-imported alert
(`cmd/import-history/main.go` lines 305–321): status derived from
`ResolvedAt`, title/description/severity copied, timestamps stamped with the
alert's own `TriggeredAt`. -/
def backfillOutage (oid : Nat) (al : CanonAlert) : Outage :=
  { id := oid
    title := al.title
    description := al.description
    status := if al.resolvedAt = none then "open" else "resolved"
    severity := al.severity
    createdAt := al.triggeredAt
    updatedAt := al.triggeredAt
    resolvedAt := al.resolvedAt }

/-- The alert row `processAlert` builds, linked to the outage just created
(`cmd/import-history/main.go` lines 328–342); `CreatedAt` is `time.Now()`,
passed in as `now`. -/
def backfillAlert (aid oid now : Nat) (al : CanonAlert) : DAlert :=
  { id := aid
    outageID := oid
    externalID := al.externalID
    source := al.source
    teamName := al.teamName
    title := al.title
    description := al.description
    severity := al.severity
    triggeredAt := al.triggeredAt
    acknowledgedAt := al.acknowledgedAt
    resolvedAt := al.resolvedAt
    createdAt := now }

/-- Result of processing one alert: new store state, new statistics, the
store calls made, and the error returned to the caller (if any). -/
structure ProcResult where
  store : Store
  stats : ImportStats
  ops : List StoreOp
  err : Option String
deriving DecidableEq

/-- `processAlert` of `cmd/import-history/main.go`: dry-run short-circuit,
existence check, new-outage creation with derived status, alert creation, and
compensating `DeleteOutage` when the alert write fails. -/
def processAlert (fx : StoreFx) (now : Nat) (store : Store) (alert : CanonAlert)
    (dryRun : Bool) (stats : ImportStats) : ProcResult :=
  if dryRun then
    { store := store
      stats := { stats with
                  newOutages := stats.newOutages + 1
                  newAlerts := stats.newAlerts + 1 }
      ops := []
      err := none }
  else if fx.failGetAlert alert.externalID alert.source then
    { store := store
      stats := stats
      ops := [StoreOp.getAlert alert.externalID alert.source]
      err := some "failed to check existing alert" }
  else
    match store.getAlertByExternalID alert.externalID alert.source with
    | some _ =>
      { store := store
        stats := { stats with skipped := stats.skipped + 1 }
        ops := [StoreOp.getAlert alert.externalID alert.source]
        err := none }
    | none =>
      let outage := backfillOutage store.nextID alert
      if fx.failCreateOutage outage then
        { store := store
          stats := stats
          ops := [StoreOp.getAlert alert.externalID alert.source,
                  StoreOp.createOutage outage]
          err := some "failed to create outage" }
      else
        let store1 : Store :=
          { store with outages := store.outages ++ [outage], nextID := store.nextID + 1 }
        let stats1 := { stats with newOutages := stats.newOutages + 1 }
        let domainAlert := backfillAlert store1.nextID outage.id now alert
        if fx.failCreateAlert domainAlert then
          { store := { store1 with
                        outages := store1.outages.filter (fun o => o.id ≠ outage.id) }
            stats := stats1
            ops := [StoreOp.getAlert alert.externalID alert.source,
                    StoreOp.createOutage outage,
                    StoreOp.createAlert domainAlert,
                    StoreOp.deleteOutage outage.id]
            err := some "failed to create alert" }
        else
          { store := { store1 with
                        alerts := store1.alerts ++ [domainAlert]
                        nextID := store1.nextID + 1 }
            stats := { stats1 with newAlerts := stats1.newAlerts + 1 }
            ops := [StoreOp.getAlert alert.externalID alert.source,
                    StoreOp.createOutage outage,
                    StoreOp.createAlert domainAlert]
            err := none }

/-- The per-alert loop inside `runImport` (lines 262–267): each alert is
processed, a returned error is logged and counted in `Errors`, and the loop
continues with the next alert. -/
def processPage (fx : StoreFx) (now : Nat) (dryRun : Bool) :
    List CanonAlert → Store → ImportStats → List StoreOp →
    Store × ImportStats × List StoreOp
  | [], store, stats, ops => (store, stats, ops)
  | alert :: rest, store, stats, ops =>
    let r := processAlert fx now store alert dryRun stats
    let stats' :=
      match r.err with
      | some _ => { r.stats with errors := r.stats.errors + 1 }
      | none => r.stats
    processPage fx now dryRun rest r.store stats' (ops ++ r.ops)

/-- One page returned by a provider adapter's historical fetch: the
normalized alerts, the normalized `hasMore` flag, and a fetch-level
(auth/API/decode) error. The driver only sees the page through this shape. -/
structure FetchResult where
  alerts : List CanonAlert
  hasMore : Bool
  fetchErr : Option String
deriving DecidableEq

/-- Result of a whole backfill driver run: final store and statistics, the
number of fetch calls, the number of 500ms inter-page delays slept, the store
calls made, and the error `runImport` returned (if any). -/
structure RunResult where
  store : Store
  stats : ImportStats
  fetchCalls : Nat
  delays : Nat
  ops : List StoreOp
  runErr : Option String
deriving DecidableEq

/-- The `for hasMore` loop of `runImport` (lines 219–276): fetch a page at
the current offset, abort on a fetch error, stop on an empty page, count the
page in `TotalFetched`, process each alert, advance the offset by the batch
size, sleep the fixed 500ms delay, and loop while `hasMore`. The provider is
a function of the offset (since/until/team filters are fixed for a run and
absorbed into it); the first argument is fuel. -/
def runImportLoop (fx : StoreFx) (now : Nat) (provider : Nat → FetchResult)
    (batchSize : Nat) (dryRun : Bool) :
    Nat → Nat → Store → ImportStats → Nat → Nat → List StoreOp →
    Option RunResult
  | 0, _, _, _, _, _, _ => none
  | fuel + 1, offset, store, stats, fetchCalls, delays, ops =>
    let page := provider offset
    match page.fetchErr with
    | some e =>
      some { store := store, stats := stats, fetchCalls := fetchCalls + 1
             delays := delays, ops := ops
             runErr := some ("failed to fetch alerts at offset " ++ toString offset
                              ++ ": " ++ e) }
    | none =>
      if page.alerts.isEmpty then
        some { store := store, stats := stats, fetchCalls := fetchCalls + 1
               delays := delays, ops := ops, runErr := none }
      else
        let stats1 := { stats with
                         totalFetched := stats.totalFetched + page.alerts.length }
        let step := processPage fx now dryRun page.alerts store stats1 ops
        if page.hasMore then
          runImportLoop fx now provider batchSize dryRun fuel (offset + batchSize)
            step.1 step.2.1 (fetchCalls + 1) (delays + 1) step.2.2
        else
          some { store := step.1, stats := step.2.1, fetchCalls := fetchCalls + 1
                 delays := delays + 1, ops := step.2.2, runErr := none }

/-- `runImport` started the way `main` starts it: offset 0, fresh statistics,
no calls made yet. -/
def runImport (fx : StoreFx) (now : Nat) (provider : Nat → FetchResult)
    (batchSize : Nat) (dryRun : Bool) (fuel : Nat) (store : Store) :
    Option RunResult :=
  runImportLoop fx now provider batchSize dryRun fuel 0 store zeroStats 0 0 []

/-- The tail of `main` (lines 143–158): when `runImport` returns an error,
`log.Fatalf("Import failed: ...")` exits the process immediately and the
statistics block is never reached (`none`); otherwise the final summary is
printed (`some stats`). -/
def importMain (fx : StoreFx) (now : Nat) (provider : Nat → FetchResult)
    (batchSize : Nat) (dryRun : Bool) (fuel : Nat) (store : Store) :
    Option ImportStats :=
  match runImport fx now provider batchSize dryRun fuel store with
  | none => none
  | some r =>
    match r.runErr with
    | some _ => none
    | none => some r.stats

/-- The outage `Service.ImportAlert` builds when no target outage id is
supplied (`internal/service/service.go` lines 224–238): status is the literal
`"open"`, timestamps are `time.Now()`, and `ResolvedAt` is left at its
zero value. -/
def liveOutage (oid now : Nat) (al : CanonAlert) : Outage :=
  { id := oid
    title := al.title
    description := al.description
    status := "open"
    severity := al.severity
    createdAt := now
    updatedAt := now
    resolvedAt := none }

/-- The alert row `Service.ImportAlert` builds (lines 240–254). -/
def liveAlert (aid oid now : Nat) (al : CanonAlert) : DAlert :=
  { id := aid
    outageID := oid
    externalID := al.externalID
    source := al.source
    teamName := al.teamName
    title := al.title
    description := al.description
    severity := al.severity
    triggeredAt := al.triggeredAt
    acknowledgedAt := al.acknowledgedAt
    resolvedAt := al.resolvedAt
    createdAt := now }

/-- Result of the live-import path: the returned alert or the returned error,
the store state, and the store calls made. -/
structure LiveResult where
  alertRes : Option DAlert
  liveErr : Option String
  store : Store
  ops : List StoreOp
deriving DecidableEq

/-- `Service.ImportAlert` of `internal/service/service.go` (lines 203–259):
fetch the alert from the provider (`fetched = none` models a fetch or
service-lookup failure), return the already-persisted alert when the
existence lookup succeeds, otherwise create an outage when no target id was
given and then create the alert row. Note: when `CreateAlert` fails this path
returns the error without calling `DeleteOutage`. -/
def importAlert (fx : StoreFx) (now : Nat) (st : Store)
    (fetched : Option CanonAlert) (externalID source : String)
    (outageID : Option Nat) : LiveResult :=
  match fetched with
  | none =>
    { alertRes := none
      liveErr := some ("failed to fetch alert from " ++ source)
      store := st, ops := [] }
  | some notifAlert =>
    -- `if err == nil { return existing, nil }`: err is nil exactly when the
    -- lookup did not fail and a row was found; any error (not-found or a
    -- store failure) falls through to the creation steps.
    if fx.failGetAlert externalID source = false
        ∧ (st.getAlertByExternalID externalID source).isSome then
      { alertRes := st.getAlertByExternalID externalID source
        liveErr := none, store := st
        ops := [StoreOp.getAlert externalID source] }
    else
      match outageID with
      | some oid =>
        let a := liveAlert st.nextID oid now notifAlert
        if fx.failCreateAlert a then
          { alertRes := none, liveErr := some "failed to create alert"
            store := st
            ops := [StoreOp.getAlert externalID source, StoreOp.createAlert a] }
        else
          { alertRes := some a, liveErr := none
            store := { st with alerts := st.alerts ++ [a], nextID := st.nextID + 1 }
            ops := [StoreOp.getAlert externalID source, StoreOp.createAlert a] }
      | none =>
        let outage := liveOutage st.nextID now notifAlert
        if fx.failCreateOutage outage then
          { alertRes := none, liveErr := some "failed to create outage"
            store := st
            ops := [StoreOp.getAlert externalID source, StoreOp.createOutage outage] }
        else
          let st1 : Store :=
            { st with outages := st.outages ++ [outage], nextID := st.nextID + 1 }
          let a := liveAlert st1.nextID outage.id now notifAlert
          if fx.failCreateAlert a then
            -- No compensating DeleteOutage on this path.
            { alertRes := none, liveErr := some "failed to create alert"
              store := st1
              ops := [StoreOp.getAlert externalID source,
                      StoreOp.createOutage outage, StoreOp.createAlert a] }
          else
            { alertRes := some a, liveErr := none
              store := { st1 with alerts := st1.alerts ++ [a], nextID := st1.nextID + 1 }
              ops := [StoreOp.getAlert externalID source,
                      StoreOp.createOutage outage, StoreOp.createAlert a] }

/-- A team entry of a decoded OpsGenie alert. -/
structure OGTeam where
  id : String
  name : String
deriving DecidableEq

/-- One decoded OpsGenie alert (the response element of
`FetchHistoricalAlerts` in the OpsGenie adapter). -/
structure OGAlertData where
  id : String
  message : String
  description : String
  status : String
  priority : String
  createdAt : Nat
  acknowledgedAt : Option Nat
  closedAt : Option Nat
  teams : List OGTeam
deriving DecidableEq

/-- The decoded OpsGenie paging envelope. -/
structure OGPaging where
  next : String
  first : String
  last : String
deriving DecidableEq

/-- The decoded OpsGenie list response. -/
structure OGResponse where
  data : List OGAlertData
  paging : OGPaging
deriving DecidableEq

/-- The nested `found` loops of the OpsGenie adapter's client-side team
filter: does some team of the alert carry one of the requested ids? -/
def ogMatchesTeams (teamIDs : List String) (teams : List OGTeam) : Bool :=
  teams.any (fun team => teamIDs.any (fun filterID => team.id == filterID))

/-- `teamName := "unknown"; if len(alert.Teams) > 0 { teamName = alert.Teams[0].Name }`. -/
def ogTeamName (teams : List OGTeam) : String :=
  match teams with
  | [] => "unknown"
  | t :: _ => t.name

/-- Normalization of one OpsGenie alert into the canonical model. -/
def ogNormalize (a : OGAlertData) : CanonAlert :=
  { externalID := a.id
    source := "opsgenie"
    teamName := ogTeamName a.teams
    title := a.message
    description := a.description
    severity := a.priority
    triggeredAt := a.createdAt
    acknowledgedAt := a.acknowledgedAt
    resolvedAt := a.closedAt }

/-- The result-building loop of the OpsGenie `FetchHistoricalAlerts`
(part of the adapter, lines 250–287): when a team filter is requested and the
alert's teams do not intersect it, the alert is skipped (`continue`);
otherwise the normalized alert is appended. -/
def ogBuildAlerts (teamIDs : List String) : List OGAlertData → List CanonAlert
  | [] => []
  | a :: rest =>
    if teamIDs.length > 0 && !(ogMatchesTeams teamIDs a.teams) then
      ogBuildAlerts teamIDs rest
    else
      ogNormalize a :: ogBuildAlerts teamIDs rest

/-- The decode → filter → normalize stage of the OpsGenie
`FetchHistoricalAlerts`, applied to an already-decoded response:
returns the filtered, normalized alerts and
`hasMore = (paging.next != "")`. The HTTP/auth stage is modelled by the
driver-level `FetchResult.fetchErr`. -/
def fetchHistoricalAlerts (teamIDs : List String) (resp : OGResponse) :
    List CanonAlert × Bool :=
  (ogBuildAlerts teamIDs resp.data, resp.paging.next != "")

/-- A team entry of a decoded PagerDuty incident. -/
structure PDTeam where
  id : String
  summary : String
deriving DecidableEq

/-- One decoded PagerDuty incident (the response element of
`FetchHistoricalIncidents` in `internal/notification/pagerduty/pagerduty.go`). -/
structure PDIncident where
  id : String
  title : String
  description : String
  status : String
  urgency : String
  createdAt : Nat
  acknowledgedAt : Option Nat
  resolvedAt : Option Nat
  serviceSummary : String
  teams : List PDTeam
deriving DecidableEq

/-- The decoded PagerDuty list response: incidents plus the explicit `more`
boolean of the envelope. -/
structure PDResponse where
  incidents : List PDIncident
  more : Bool
deriving DecidableEq

/-- `teamName := "unknown"; if len(incident.Teams) > 0 { teamName = incident.Teams[0].Summary }`. -/
def pdTeamName (teams : List PDTeam) : String :=
  match teams with
  | [] => "unknown"
  | t :: _ => t.summary

/-- Normalization of one PagerDuty incident into the canonical model
(`pagerduty.go` lines 255–273). -/
def pdNormalize (i : PDIncident) : CanonAlert :=
  { externalID := i.id
    source := "pagerduty"
    teamName := pdTeamName i.teams
    title := i.title
    description := i.description
    severity := i.urgency
    triggeredAt := i.createdAt
    acknowledgedAt := i.acknowledgedAt
    resolvedAt := i.resolvedAt }

/-- The decode → normalize stage of the PagerDuty `FetchHistoricalIncidents`
(team filtering is server-side for PagerDuty, so no client-side filter):
returns the normalized incidents and `hasMore = result.More`. -/
def fetchHistoricalIncidents (resp : PDResponse) : List CanonAlert × Bool :=
  (resp.incidents.map pdNormalize, resp.more)

/-! ### Concrete data used by counterexamples and witnesses -/

/-- The empty store. -/
def emptyStore : Store := { outages := [], alerts := [], nextID := 0 }

/-- A sample open (unresolved) canonical alert. -/
def sampleAlert1 : CanonAlert :=
  { externalID := "PD1", source := "pagerduty", teamName := "Backend"
    title := "db down", description := "primary unreachable", severity := "high"
    triggeredAt := 10, acknowledgedAt := none, resolvedAt := none }

/-- A second sample alert with a distinct identity key. -/
def sampleAlert2 : CanonAlert :=
  { externalID := "PD2", source := "pagerduty", teamName := "Backend"
    title := "api latency", description := "p99 spike", severity := "low"
    triggeredAt := 11, acknowledgedAt := none, resolvedAt := none }

/-- A third sample alert with a distinct identity key. -/
def sampleAlert3 : CanonAlert :=
  { externalID := "PD3", source := "pagerduty", teamName := "Backend"
    title := "disk full", description := "var partition", severity := "medium"
    triggeredAt := 12, acknowledgedAt := some 13, resolvedAt := some 14 }

/-- A resolved sample alert (non-nil `ResolvedAt`). -/
def resolvedAlert : CanonAlert :=
  { externalID := "OG9", source := "opsgenie", teamName := "SRE"
    title := "cpu alarm", description := "sustained load", severity := "P2"
    triggeredAt := 20, acknowledgedAt := some 21, resolvedAt := some 50 }

/-- A store already holding the persisted row for `sampleAlert1`. -/
def storeWith1 : Store :=
  { outages := [backfillOutage 0 sampleAlert1]
    alerts := [backfillAlert 1 0 99 sampleAlert1]
    nextID := 2 }

/-- An oracle whose `CreateAlert` always fails (and nothing else). -/
def failAlertFx : StoreFx :=
  { failGetAlert := fun _ _ => false
    failCreateOutage := fun _ => false
    failCreateAlert := fun _ => true }

/-- The provider of the spec's concrete scenario: page one returns two alerts
with `hasMore = true`, page two (offset 2, batch size 2) returns one alert
with `hasMore = false`. -/
def scenarioProvider : Nat → FetchResult := fun offset =>
  if offset = 0 then
    { alerts := [sampleAlert1, sampleAlert2], hasMore := true, fetchErr := none }
  else if offset = 2 then
    { alerts := [sampleAlert3], hasMore := false, fetchErr := none }
  else
    { alerts := [], hasMore := false, fetchErr := none }

/-- A provider whose very first fetch fails (auth/API/decode failure). -/
def failingProvider : Nat → FetchResult := fun _ =>
  { alerts := [], hasMore := false, fetchErr := some "status 500" }

/-- A one-page provider returning only `sampleAlert1`. -/
def singlePageProvider : Nat → FetchResult := fun offset =>
  if offset = 0 then
    { alerts := [sampleAlert1], hasMore := false, fetchErr := none }
  else
    { alerts := [], hasMore := false, fetchErr := none }

/-- A provider returning an empty page that still claims `hasMore = true`
(e.g. an OpsGenie page entirely removed by the client-side team filter). -/
def emptyPageMoreProvider : Nat → FetchResult := fun _ =>
  { alerts := [], hasMore := true, fetchErr := none }

/-- Specification auxiliary (not an embedding of source code): the pages a
driver run with the given fuel would fetch and process, following exactly the
fetch/abort/empty/`hasMore` decisions of `runImportLoop`. Used to phrase
hypotheses that quantify over every alert a run touches. -/
def collectPages (provider : Nat → FetchResult) (batchSize : Nat) :
    Nat → Nat → List (List CanonAlert)
  | 0, _ => []
  | fuel + 1, offset =>
    let page := provider offset
    match page.fetchErr with
    | some _ => []
    | none =>
      if page.alerts.isEmpty then []
      else
        page.alerts ::
          (if page.hasMore then collectPages provider batchSize fuel (offset + batchSize)
           else [])

/-- The run result of a backfill whose very first fetch fails. -/
def cFailRun : RunResult :=
  { store := emptyStore, stats := zeroStats, fetchCalls := 1, delays := 0
    ops := [], runErr := some "failed to fetch alerts at offset 0: status 500" }

/-- A concrete decoded OpsGenie response: one alert on team `T1`, one on team
`T2`, with a non-empty `paging.next`. -/
def cOGResp : OGResponse :=
  { data :=
      [ { id := "A1", message := "m1", description := "d1", status := "open"
          priority := "P1", createdAt := 1, acknowledgedAt := none
          closedAt := none, teams := [{ id := "T1", name := "Alpha" }] }
      , { id := "A2", message := "m2", description := "d2", status := "open"
          priority := "P2", createdAt := 2, acknowledgedAt := none
          closedAt := none, teams := [{ id := "T2", name := "Beta" }] } ]
    paging := { next := "https://api.example/page2", first := "", last := "" } }

/-- A concrete decoded OpsGenie response none of whose alerts is on team
`T9`, with `paging.next` still non-empty. -/
def cOGRespNoMatch : OGResponse :=
  { data :=
      [ { id := "A3", message := "m3", description := "d3", status := "open"
          priority := "P3", createdAt := 3, acknowledgedAt := none
          closedAt := none, teams := [{ id := "T1", name := "Alpha" }] } ]
    paging := { next := "https://api.example/page2", first := "", last := "" } }

/-- The result of a dry run over `singlePageProvider` from the empty store. -/
def cDryRun : RunResult :=
  { store := emptyStore
    stats := { totalFetched := 1, newOutages := 1, newAlerts := 1, skipped := 0
               errors := 0 }
    fetchCalls := 1, delays := 1, ops := [], runErr := none }

/-! ## Helper lemmas -/

/-- The existence lookup misses exactly when no persisted row carries the
identity key. -/
theorem getAlert_none_iff (st : Store) (e s : String) :
    st.getAlertByExternalID e s = none ↔ (e, s) ∉ st.alerts.map dKey := by
  rw [Store.getAlertByExternalID, List.find?_eq_none]
  simp only [List.mem_map, not_exists, Bool.and_eq_true, beq_iff_eq, dKey,
    Prod.ext_iff, not_and]

/-- Dry-run `processAlert`: no store interaction, both creation counters
advance. -/
theorem processAlert_dry (fx : StoreFx) (now : Nat) (st : Store)
    (al : CanonAlert) (stats : ImportStats) :
    processAlert fx now st al true stats =
      { store := st
        stats := { stats with newOutages := stats.newOutages + 1
                              newAlerts := stats.newAlerts + 1 }
        ops := [], err := none } := by
  simp [processAlert]

/-- Backfill `processAlert` on a fresh key with all store calls succeeding:
creates the outage and the linked alert row. -/
theorem processAlert_noFail_fresh (now : Nat) (st : Store) (al : CanonAlert)
    (stats : ImportStats)
    (hnew : st.getAlertByExternalID al.externalID al.source = none) :
    processAlert noFail now st al false stats =
      { store := { outages := st.outages ++ [backfillOutage st.nextID al]
                   alerts := st.alerts ++ [backfillAlert (st.nextID + 1) st.nextID now al]
                   nextID := st.nextID + 2 }
        stats := { stats with newOutages := stats.newOutages + 1
                              newAlerts := stats.newAlerts + 1 }
        ops := [StoreOp.getAlert al.externalID al.source,
                StoreOp.createOutage (backfillOutage st.nextID al),
                StoreOp.createAlert (backfillAlert (st.nextID + 1) st.nextID now al)]
        err := none } := by
  simp [processAlert, noFail, hnew, backfillOutage]

/-- The OpsGenie result-building loop is the filter-then-normalize pipeline
once a team filter is requested. -/
theorem ogBuildAlerts_eq (teamIDs : List String) (h : teamIDs ≠ [])
    (l : List OGAlertData) :
    ogBuildAlerts teamIDs l =
      (l.filter (fun a => ogMatchesTeams teamIDs a.teams)).map ogNormalize := by
  have hlen : 0 < teamIDs.length := List.length_pos.mpr h
  induction l with
  | nil => rfl
  | cons a rest ih =>
    cases hm : ogMatchesTeams teamIDs a.teams with
    | false => simp [ogBuildAlerts, hm, hlen, List.filter_cons, ih]
    | true => simp [ogBuildAlerts, hm, hlen, List.filter_cons, ih]

/-- Dry-run page processing: the store is untouched, no store call is added,
and both creation counters advance by the page length. -/
theorem processPage_dry (fx : StoreFx) (now : Nat) (page : List CanonAlert) :
    ∀ (st : Store) (stats : ImportStats) (ops : List StoreOp),
    processPage fx now true page st stats ops =
      (st, { stats with newOutages := stats.newOutages + page.length
                        newAlerts := stats.newAlerts + page.length }, ops) := by
  induction page with
  | nil => intro st stats ops; simp [processPage]
  | cons al rest ih =>
    intro st stats ops
    rw [processPage, processAlert_dry]
    simp only [List.append_nil]
    rw [ih]
    simp [Nat.add_comm, Nat.add_assoc, Nat.add_left_comm]

/-- Real-run page processing over a page of pairwise-distinct keys, none of
which is persisted yet, with all store calls succeeding: both creation
counters advance by the page length, the other counters are unchanged, and
the persisted keys are extended by exactly the page's keys. -/
theorem processPage_noFail_fresh (now : Nat) (page : List CanonAlert) :
    ∀ (st : Store) (stats : ImportStats) (ops : List StoreOp),
    (page.map alertKey).Nodup →
    (∀ al ∈ page, alertKey al ∉ st.alerts.map dKey) →
    (processPage noFail now false page st stats ops).2.1 =
        { stats with newOutages := stats.newOutages + page.length
                     newAlerts := stats.newAlerts + page.length }
    ∧ (processPage noFail now false page st stats ops).1.alerts.map dKey =
        st.alerts.map dKey ++ page.map alertKey := by
  induction page with
  | nil => intro st stats ops _ _; simp [processPage]
  | cons al rest ih =>
    intro st stats ops hnd hfresh
    have hnew : st.getAlertByExternalID al.externalID al.source = none :=
      (getAlert_none_iff st al.externalID al.source).mpr
        (hfresh al (List.mem_cons_self al rest))
    rw [processPage, processAlert_noFail_fresh now st al stats hnew]
    simp only [List.map_cons] at hnd
    have hndrest : (rest.map alertKey).Nodup := hnd.of_cons
    have hnotal : alertKey al ∉ rest.map alertKey := by
      have := List.nodup_cons.mp hnd
      exact this.1
    set st' : Store :=
      { outages := st.outages ++ [backfillOutage st.nextID al]
        alerts := st.alerts ++ [backfillAlert (st.nextID + 1) st.nextID now al]
        nextID := st.nextID + 2 } with hst'
    have hkeys : st'.alerts.map dKey = st.alerts.map dKey ++ [alertKey al] := by
      simp [hst', dKey, backfillAlert, alertKey]
    have hfresh' : ∀ b ∈ rest, alertKey b ∉ st'.alerts.map dKey := by
      intro b hb
      rw [hkeys]
      intro hmem
      rcases List.mem_append.mp hmem with hold | hnewmem
      · exact hfresh b (List.mem_cons_of_mem al hb) hold
      · have : alertKey b = alertKey al := List.mem_singleton.mp hnewmem
        exact hnotal (this ▸ List.mem_map_of_mem alertKey hb)
    have hrec := ih st'
      { stats with newOutages := stats.newOutages + 1, newAlerts := stats.newAlerts + 1 }
      (ops ++ [StoreOp.getAlert al.externalID al.source,
               StoreOp.createOutage (backfillOutage st.nextID al),
               StoreOp.createAlert (backfillAlert (st.nextID + 1) st.nextID now al)])
      hndrest hfresh'
    constructor
    · rw [hrec.1]
      simp [Nat.add_comm, Nat.add_assoc, Nat.add_left_comm]
    · rw [hrec.2, hkeys]
      simp

/-- A dry run adds nothing to the store-call trace: the result's trace is the
accumulator it started from. -/
theorem runLoop_dry_ops (fx : StoreFx) (now : Nat) (provider : Nat → FetchResult)
    (batchSize : Nat) :
    ∀ (fuel offset : Nat) (st : Store) (stats : ImportStats) (fc dc : Nat)
      (ops : List StoreOp) (r : RunResult),
    runImportLoop fx now provider batchSize true fuel offset st stats fc dc ops
      = some r →
    r.ops = ops := by
  intro fuel
  induction fuel with
  | zero =>
    intro offset st stats fc dc ops r h
    simp [runImportLoop] at h
  | succ n ih =>
    intro offset st stats fc dc ops r h
    rw [runImportLoop] at h
    cases herr : (provider offset).fetchErr with
    | some e =>
      simp only [herr] at h
      cases h
      rfl
    | none =>
      simp only [herr] at h
      by_cases hemp : (provider offset).alerts.isEmpty
      · simp only [hemp, if_true] at h
        cases h
        rfl
      · simp only [hemp, if_false] at h
        rw [processPage_dry] at h
        cases hm : (provider offset).hasMore with
        | true =>
          simp only [hm, if_true] at h
          exact ih (offset + batchSize) st _ (fc + 1) (dc + 1) ops r h
        | false =>
          simp only [hm, if_false] at h
          cases h
          rfl

/-- A real run (all store calls succeeding) and a dry run over the same
provider, batch size and fuel fetch the same pages and accumulate the same
statistics, provided every alert the run touches has a fresh identity key:
pairwise-distinct keys, none already persisted. -/
theorem runLoop_dry_real_stats (now : Nat) (provider : Nat → FetchResult)
    (batchSize : Nat) :
    ∀ (fuel offset : Nat) (st stD : Store) (stats : ImportStats) (fc dc : Nat)
      (opsR opsD : List StoreOp),
    ((collectPages provider batchSize fuel offset).flatten.map alertKey).Nodup →
    (∀ al ∈ (collectPages provider batchSize fuel offset).flatten,
        alertKey al ∉ st.alerts.map dKey) →
    Option.map RunResult.stats
        (runImportLoop noFail now provider batchSize false fuel offset st stats fc dc opsR)
      = Option.map RunResult.stats
        (runImportLoop noFail now provider batchSize true fuel offset stD stats fc dc opsD) := by
  intro fuel
  induction fuel with
  | zero =>
    intro offset st stD stats fc dc opsR opsD _ _
    simp [runImportLoop]
  | succ n ih =>
    intro offset st stD stats fc dc opsR opsD hnd hfresh
    rw [runImportLoop, runImportLoop]
    cases herr : (provider offset).fetchErr with
    | some e => simp [herr]
    | none =>
      simp only [herr]
      cases hemp : (provider offset).alerts.isEmpty with
      | true => simp [hemp]
      | false =>
        cases hm : (provider offset).hasMore with
        | false =>
          have hcp : collectPages provider batchSize (n + 1) offset =
              [(provider offset).alerts] := by
            rw [collectPages]
            simp [herr, hemp, hm]
          rw [hcp] at hnd hfresh
          simp only [List.flatten_cons, List.flatten_nil, List.append_nil]
            at hnd hfresh
          have hpage := processPage_noFail_fresh now (provider offset).alerts st
            { stats with totalFetched := stats.totalFetched + (provider offset).alerts.length }
            opsR hnd hfresh
          simp only [hemp, hm, Bool.false_eq_true, if_false]
          rw [processPage_dry, hpage.1]
          simp
        | true =>
          have hcp : collectPages provider batchSize (n + 1) offset =
              (provider offset).alerts ::
                collectPages provider batchSize n (offset + batchSize) := by
            rw [collectPages]
            simp [herr, hemp, hm]
          rw [hcp] at hnd hfresh
          simp only [List.flatten_cons] at hnd hfresh
          rw [List.map_append] at hnd
          have hndpage : ((provider offset).alerts.map alertKey).Nodup :=
            hnd.of_append_left
          have hndrest :
              (((collectPages provider batchSize n (offset + batchSize)).flatten).map
                alertKey).Nodup :=
            hnd.of_append_right
          have hdisj := List.disjoint_of_nodup_append hnd
          have hfreshpage : ∀ al ∈ (provider offset).alerts,
              alertKey al ∉ st.alerts.map dKey :=
            fun al hal => hfresh al (List.mem_append_left _ hal)
          have hpage := processPage_noFail_fresh now (provider offset).alerts st
            { stats with totalFetched := stats.totalFetched + (provider offset).alerts.length }
            opsR hndpage hfreshpage
          simp only [hemp, hm, Bool.false_eq_true, if_false, if_true]
          rw [processPage_dry, hpage.1]
          apply ih
          · exact hndrest
          · intro al hal
            rw [hpage.2]
            intro hmem
            rcases List.mem_append.mp hmem with hold | hpagekey
            · exact hfresh al (List.mem_append_right _ hal) hold
            · exact hdisj hpagekey (List.mem_map_of_mem alertKey hal)

/-! ## Claims -/

/-- C1: importing an alert whose identity key `(ExternalID, Source)` already
has a persisted row performs no write. On the backfill path `processAlert`
only increments `Skipped` (so a second run over the same alert reports
`NewAlerts = 0`, `Skipped = 1` for it), leaves the store — hence the total
outage count — unchanged, and its only store call is the lookup; on the
live-import path `importAlert` returns the already-persisted alert with the
store unchanged. -/
theorem c1_duplicate_import_is_readonly
    (fx : StoreFx) (now : Nat) (st : Store) (al : CanonAlert)
    (stats : ImportStats) (ex : DAlert) (oid : Option Nat)
    (hfx : fx.failGetAlert al.externalID al.source = false)
    (hex : st.getAlertByExternalID al.externalID al.source = some ex) :
    processAlert fx now st al false stats =
      { store := st
        stats := { stats with skipped := stats.skipped + 1 }
        ops := [StoreOp.getAlert al.externalID al.source]
        err := none }
    ∧ importAlert fx now st (some al) al.externalID al.source oid =
      { alertRes := some ex, liveErr := none, store := st
        ops := [StoreOp.getAlert al.externalID al.source] } := by
  constructor
  · simp [processAlert, hfx, hex]
  · simp [importAlert, hfx, hex]

/-- C1 witness: `sampleAlert1` is already persisted in `storeWith1`; importing
it again only skips it (backfill) or returns the stored row (live path). -/
theorem c1_witness :
    (noFail.failGetAlert sampleAlert1.externalID sampleAlert1.source = false
      ∧ storeWith1.getAlertByExternalID sampleAlert1.externalID sampleAlert1.source
          = some (backfillAlert 1 0 99 sampleAlert1))
    ∧ (processAlert noFail 100 storeWith1 sampleAlert1 false zeroStats =
        { store := storeWith1
          stats := { zeroStats with skipped := zeroStats.skipped + 1 }
          ops := [StoreOp.getAlert sampleAlert1.externalID sampleAlert1.source]
          err := none }
      ∧ importAlert noFail 100 storeWith1 (some sampleAlert1)
          sampleAlert1.externalID sampleAlert1.source none =
        { alertRes := some (backfillAlert 1 0 99 sampleAlert1), liveErr := none
          store := storeWith1
          ops := [StoreOp.getAlert sampleAlert1.externalID sampleAlert1.source] }) :=
  ⟨⟨by decide, by decide⟩,
    c1_duplicate_import_is_readonly noFail 100 storeWith1 sampleAlert1 zeroStats
      (backfillAlert 1 0 99 sampleAlert1) none (by decide) (by decide)⟩

/-- C2 counterexample: on the live-import path (`Service.ImportAlert`) with
no target outage id, when `CreateAlert` fails right after the new
`CreateOutage` succeeded, the error is reported while the just-created
outage is still in the store and `DeleteOutage` was never invoked — the
claimed compensation does not happen on this path. -/
theorem c2_counterexample :
    (importAlert failAlertFx 100 emptyStore (some sampleAlert1) "PD1" "pagerduty"
        none).liveErr = some "failed to create alert"
    ∧ (importAlert failAlertFx 100 emptyStore (some sampleAlert1) "PD1" "pagerduty"
        none).store.outages = [liveOutage 0 100 sampleAlert1]
    ∧ (importAlert failAlertFx 100 emptyStore (some sampleAlert1) "PD1" "pagerduty"
        none).ops =
      [StoreOp.getAlert "PD1" "pagerduty",
       StoreOp.createOutage (liveOutage 0 100 sampleAlert1),
       StoreOp.createAlert (liveAlert 1 0 100 sampleAlert1)] := by
  decide

/-- C2 (amended): the compensating deletion happens on the backfill path
only. There, when `CreateAlert` fails after the new `CreateOutage`
succeeded, `DeleteOutage` is invoked on the new outage and no orphan outage
survives (the outage list is exactly what it was); the live-import path
returns the error leaving the just-created outage in place. -/
theorem c2_backfill_compensation
    (fx : StoreFx) (now : Nat) (st : Store) (al : CanonAlert) (stats : ImportStats)
    (hfx : fx.failGetAlert al.externalID al.source = false)
    (hnew : st.getAlertByExternalID al.externalID al.source = none)
    (hco : fx.failCreateOutage (backfillOutage st.nextID al) = false)
    (hca : fx.failCreateAlert (backfillAlert (st.nextID + 1) st.nextID now al) = true)
    (hfresh : ∀ o ∈ st.outages, o.id ≠ st.nextID)
    (hcoL : fx.failCreateOutage (liveOutage st.nextID now al) = false)
    (hcaL : fx.failCreateAlert (liveAlert (st.nextID + 1) st.nextID now al) = true) :
    ((processAlert fx now st al false stats).err = some "failed to create alert"
      ∧ (processAlert fx now st al false stats).store.outages = st.outages
      ∧ StoreOp.deleteOutage st.nextID ∈ (processAlert fx now st al false stats).ops)
    ∧ ((importAlert fx now st (some al) al.externalID al.source none).liveErr
          = some "failed to create alert"
      ∧ (importAlert fx now st (some al) al.externalID al.source none).store.outages
          = st.outages ++ [liveOutage st.nextID now al]
      ∧ ∀ n, StoreOp.deleteOutage n ∉
          (importAlert fx now st (some al) al.externalID al.source none).ops) := by
  have hca' : fx.failCreateAlert
      (backfillAlert (st.nextID + 1) (backfillOutage st.nextID al).id now al) = true := by
    simpa [backfillOutage] using hca
  have hcaL' : fx.failCreateAlert
      (liveAlert (st.nextID + 1) (liveOutage st.nextID now al).id now al) = true := by
    simpa [liveOutage] using hcaL
  constructor
  · refine ⟨?_, ?_, ?_⟩
    · simp [processAlert, hfx, hnew, hco, hca']
    · simp [processAlert, hfx, hnew, hco, hca', List.filter_append]
      intro o ho
      simpa [backfillOutage] using hfresh o ho
    · simp [processAlert, hfx, hnew, hco, hca']
      simp [backfillOutage]
  · refine ⟨?_, ?_, ?_⟩
    · simp [importAlert, hfx, hnew, hcoL, hcaL']
    · simp [importAlert, hfx, hnew, hcoL, hcaL']
    · intro n
      simp [importAlert, hfx, hnew, hcoL, hcaL']

/-- C2 witness: with a store oracle whose `CreateAlert` always fails, on the
empty store, the backfill path deletes the new outage while the live path
leaves it orphaned. -/
theorem c2_witness :
    (failAlertFx.failGetAlert sampleAlert1.externalID sampleAlert1.source = false
      ∧ emptyStore.getAlertByExternalID sampleAlert1.externalID sampleAlert1.source = none
      ∧ failAlertFx.failCreateOutage (backfillOutage emptyStore.nextID sampleAlert1) = false
      ∧ failAlertFx.failCreateAlert
          (backfillAlert (emptyStore.nextID + 1) emptyStore.nextID 100 sampleAlert1) = true
      ∧ (∀ o ∈ emptyStore.outages, o.id ≠ emptyStore.nextID)
      ∧ failAlertFx.failCreateOutage (liveOutage emptyStore.nextID 100 sampleAlert1) = false
      ∧ failAlertFx.failCreateAlert
          (liveAlert (emptyStore.nextID + 1) emptyStore.nextID 100 sampleAlert1) = true)
    ∧ (((processAlert failAlertFx 100 emptyStore sampleAlert1 false zeroStats).err
          = some "failed to create alert"
        ∧ (processAlert failAlertFx 100 emptyStore sampleAlert1 false zeroStats).store.outages
          = emptyStore.outages
        ∧ StoreOp.deleteOutage emptyStore.nextID
            ∈ (processAlert failAlertFx 100 emptyStore sampleAlert1 false zeroStats).ops)
      ∧ ((importAlert failAlertFx 100 emptyStore (some sampleAlert1)
            sampleAlert1.externalID sampleAlert1.source none).liveErr
          = some "failed to create alert"
        ∧ (importAlert failAlertFx 100 emptyStore (some sampleAlert1)
            sampleAlert1.externalID sampleAlert1.source none).store.outages
          = emptyStore.outages ++ [liveOutage emptyStore.nextID 100 sampleAlert1]
        ∧ ∀ n, StoreOp.deleteOutage n ∉
            (importAlert failAlertFx 100 emptyStore (some sampleAlert1)
              sampleAlert1.externalID sampleAlert1.source none).ops)) :=
  ⟨⟨by decide, by decide, by decide, by decide, by decide, by decide, by decide⟩,
    c2_backfill_compensation failAlertFx 100 emptyStore sampleAlert1 zeroStats
      (by decide) (by decide) (by decide) (by decide) (by decide) (by decide)
      (by decide)⟩

/-- C3 counterexample: a one-alert backfill whose `CreateAlert` fails right
after `CreateOutage` succeeded ends with `Errors = 1` **and**
`NewOutages = 1` — the counter was incremented before the failed write and is
not rolled back with the outage, contradicting the claim that the alert is
not recorded under `NewOutages`. -/
theorem c3_counterexample :
    (runImport failAlertFx 100 singlePageProvider 100 false 3 emptyStore).map
        RunResult.stats =
      some { totalFetched := 1, newOutages := 1, newAlerts := 0, skipped := 0
             errors := 1 } := by
  decide

/-- C3 (amended): when `CreateAlert` fails immediately after the new
`CreateOutage` succeeded, the run records the alert under `Errors`, but
`NewOutages` is also incremented for the rolled-back outage (the increment
precedes the failed write and is never undone); `NewAlerts` and the other
counters are untouched. -/
theorem c3_error_and_outage_counted
    (fx : StoreFx) (now : Nat) (st : Store) (al : CanonAlert)
    (stats : ImportStats) (ops : List StoreOp)
    (hfx : fx.failGetAlert al.externalID al.source = false)
    (hnew : st.getAlertByExternalID al.externalID al.source = none)
    (hco : fx.failCreateOutage (backfillOutage st.nextID al) = false)
    (hca : fx.failCreateAlert (backfillAlert (st.nextID + 1) st.nextID now al) = true) :
    (processPage fx now false [al] st stats ops).2.1 =
      { stats with newOutages := stats.newOutages + 1
                   errors := stats.errors + 1 } := by
  have hca' : fx.failCreateAlert
      (backfillAlert (st.nextID + 1) (backfillOutage st.nextID al).id now al) = true := by
    simpa [backfillOutage] using hca
  simp [processPage, processAlert, hfx, hnew, hco, hca']

/-- C3 witness: the amended statement at the concrete failing run. -/
theorem c3_witness :
    (failAlertFx.failGetAlert sampleAlert1.externalID sampleAlert1.source = false
      ∧ emptyStore.getAlertByExternalID sampleAlert1.externalID sampleAlert1.source = none
      ∧ failAlertFx.failCreateOutage (backfillOutage emptyStore.nextID sampleAlert1) = false
      ∧ failAlertFx.failCreateAlert
          (backfillAlert (emptyStore.nextID + 1) emptyStore.nextID 100 sampleAlert1) = true)
    ∧ (processPage failAlertFx 100 false [sampleAlert1] emptyStore zeroStats []).2.1 =
        { zeroStats with newOutages := zeroStats.newOutages + 1
                         errors := zeroStats.errors + 1 } :=
  ⟨⟨by decide, by decide, by decide, by decide⟩,
    c3_error_and_outage_counted failAlertFx 100 emptyStore sampleAlert1 zeroStats []
      (by decide) (by decide) (by decide) (by decide)⟩

/-- C4 counterexample: the live-import path creates the outage with status
`"open"` even for an alert whose `ResolvedAt` is non-nil, contradicting the
claimed `"resolved"` derivation on that path. -/
theorem c4_counterexample :
    resolvedAlert.resolvedAt = some 50
    ∧ (importAlert noFail 100 emptyStore (some resolvedAlert)
        resolvedAlert.externalID resolvedAlert.source none).store.outages =
        [liveOutage 0 100 resolvedAlert]
    ∧ (liveOutage 0 100 resolvedAlert).status = "open" := by
  decide

/-- C4 (amended): on the backfill path the new outage's status is
`"resolved"` exactly when the alert's `ResolvedAt` is non-nil (`"open"`
otherwise) and title/description/severity are copied from the alert; on the
live-import path title/description/severity are likewise copied but the
status is always `"open"`, regardless of `ResolvedAt`. -/
theorem c4_outage_field_derivation
    (fx : StoreFx) (now : Nat) (st : Store) (al : CanonAlert) (stats : ImportStats)
    (hfx : fx.failGetAlert al.externalID al.source = false)
    (hnew : st.getAlertByExternalID al.externalID al.source = none)
    (hco : fx.failCreateOutage (backfillOutage st.nextID al) = false)
    (hca : fx.failCreateAlert (backfillAlert (st.nextID + 1) st.nextID now al) = false)
    (hcoL : fx.failCreateOutage (liveOutage st.nextID now al) = false)
    (hcaL : fx.failCreateAlert (liveAlert (st.nextID + 1) st.nextID now al) = false) :
    (∃ o, (processAlert fx now st al false stats).store.outages = st.outages ++ [o]
      ∧ o.status = (if al.resolvedAt = none then "open" else "resolved")
      ∧ o.title = al.title ∧ o.description = al.description
      ∧ o.severity = al.severity)
    ∧ (∃ o, (importAlert fx now st (some al) al.externalID al.source none).store.outages
          = st.outages ++ [o]
      ∧ o.status = "open"
      ∧ o.title = al.title ∧ o.description = al.description
      ∧ o.severity = al.severity) := by
  have hca' : fx.failCreateAlert
      (backfillAlert (st.nextID + 1) (backfillOutage st.nextID al).id now al) = false := by
    simpa [backfillOutage] using hca
  have hcaL' : fx.failCreateAlert
      (liveAlert (st.nextID + 1) (liveOutage st.nextID now al).id now al) = false := by
    simpa [liveOutage] using hcaL
  constructor
  · refine ⟨backfillOutage st.nextID al, ?_, ?_, ?_, ?_, ?_⟩
    · simp [processAlert, hfx, hnew, hco, hca']
    · simp [backfillOutage]
    · simp [backfillOutage]
    · simp [backfillOutage]
    · simp [backfillOutage]
  · refine ⟨liveOutage st.nextID now al, ?_, ?_, ?_, ?_, ?_⟩
    · simp [importAlert, hfx, hnew, hcoL, hcaL']
    · simp [liveOutage]
    · simp [liveOutage]
    · simp [liveOutage]
    · simp [liveOutage]

/-- C4 witness: the amended statement at a concrete resolved alert on the
empty store. -/
theorem c4_witness :
    (noFail.failGetAlert resolvedAlert.externalID resolvedAlert.source = false
      ∧ emptyStore.getAlertByExternalID resolvedAlert.externalID resolvedAlert.source = none
      ∧ noFail.failCreateOutage (backfillOutage emptyStore.nextID resolvedAlert) = false
      ∧ noFail.failCreateAlert
          (backfillAlert (emptyStore.nextID + 1) emptyStore.nextID 100 resolvedAlert) = false
      ∧ noFail.failCreateOutage (liveOutage emptyStore.nextID 100 resolvedAlert) = false
      ∧ noFail.failCreateAlert
          (liveAlert (emptyStore.nextID + 1) emptyStore.nextID 100 resolvedAlert) = false)
    ∧ ((∃ o, (processAlert noFail 100 emptyStore resolvedAlert false zeroStats).store.outages
          = emptyStore.outages ++ [o]
        ∧ o.status = (if resolvedAlert.resolvedAt = none then "open" else "resolved")
        ∧ o.title = resolvedAlert.title ∧ o.description = resolvedAlert.description
        ∧ o.severity = resolvedAlert.severity)
      ∧ (∃ o, (importAlert noFail 100 emptyStore (some resolvedAlert)
            resolvedAlert.externalID resolvedAlert.source none).store.outages
          = emptyStore.outages ++ [o]
        ∧ o.status = "open"
        ∧ o.title = resolvedAlert.title ∧ o.description = resolvedAlert.description
        ∧ o.severity = resolvedAlert.severity)) :=
  ⟨⟨by decide, by decide, by decide, by decide, by decide, by decide⟩,
    c4_outage_field_derivation noFail 100 emptyStore resolvedAlert zeroStats
      (by decide) (by decide) (by decide) (by decide) (by decide) (by decide)⟩

/-- C5 counterexample: when the very first provider fetch fails, the run
ends with a fatal error and `main` exits through `log.Fatalf` **without**
printing the summary (`importMain` yields `none`), contradicting the claim
that the five-counter summary is printed even when the run stops early on a
provider failure. -/
theorem c5_counterexample :
    importMain noFail 100 failingProvider 2 false 5 emptyStore = none
    ∧ (runImport noFail 100 failingProvider 2 false 5 emptyStore).map
        (fun r => r.runErr.isSome) = some true := by
  decide

/-- C5 (amended): the final summary is printed exactly when `runImport`
returns without an error; a provider fetch/auth/decode failure makes `main`
exit via `log.Fatalf("Import failed: ...")` before the summary lines, so no
summary is printed for an aborted run. -/
theorem c5_summary_only_on_success
    (fx : StoreFx) (now : Nat) (provider : Nat → FetchResult) (batchSize : Nat)
    (dryRun : Bool) (fuel : Nat) (st : Store) (r : RunResult)
    (h : runImport fx now provider batchSize dryRun fuel st = some r) :
    importMain fx now provider batchSize dryRun fuel st =
      match r.runErr with
      | some _ => none
      | none => some r.stats := by
  simp only [importMain, h]

/-- C5 witness: the amended statement at the concrete aborted run. -/
theorem c5_witness :
    runImport noFail 100 failingProvider 2 false 5 emptyStore = some cFailRun
    ∧ importMain noFail 100 failingProvider 2 false 5 emptyStore =
        (match cFailRun.runErr with
         | some _ => none
         | none => some cFailRun.stats) :=
  ⟨by decide,
    c5_summary_only_on_success noFail 100 failingProvider 2 false 5 emptyStore
      cFailRun (by decide)⟩

/-- Projecting the creation counters commutes with projecting the whole
statistics record. -/
theorem optionMap_counters (x y : Option RunResult)
    (h : Option.map RunResult.stats x = Option.map RunResult.stats y) :
    Option.map (fun r => (r.stats.newOutages, r.stats.newAlerts)) x
      = Option.map (fun r => (r.stats.newOutages, r.stats.newAlerts)) y := by
  cases x <;> cases y <;> simp_all

/-- C6 (amended): a dry run makes zero calls to the store interface, and its
`NewOutages`/`NewAlerts` equal those of a real run over the same provider,
batch size and fuel whenever every alert the run fetches has a fresh identity
key (pairwise distinct and not yet persisted) and no store call fails. In
general the counts differ: the dry run skips the dedup lookup, so an
already-persisted alert is still counted as new (see the counterexample). -/
theorem c6_dry_run_pure_and_conditionally_equal :
    (∀ (fx : StoreFx) (now : Nat) (provider : Nat → FetchResult)
        (batchSize fuel : Nat) (stD : Store) (r : RunResult),
      runImport fx now provider batchSize true fuel stD = some r → r.ops = [])
    ∧ ∀ (now : Nat) (provider : Nat → FetchResult) (batchSize fuel : Nat)
        (st stD : Store),
      ((collectPages provider batchSize fuel 0).flatten.map alertKey).Nodup →
      (∀ al ∈ (collectPages provider batchSize fuel 0).flatten,
          alertKey al ∉ st.alerts.map dKey) →
      Option.map (fun r => (r.stats.newOutages, r.stats.newAlerts))
          (runImport noFail now provider batchSize false fuel st)
        = Option.map (fun r => (r.stats.newOutages, r.stats.newAlerts))
          (runImport noFail now provider batchSize true fuel stD) := by
  constructor
  · intro fx now provider batchSize fuel stD r h
    exact runLoop_dry_ops fx now provider batchSize fuel 0 stD zeroStats 0 0 [] r h
  · intro now provider batchSize fuel st stD hnd hfresh
    exact optionMap_counters _ _
      (runLoop_dry_real_stats now provider batchSize fuel 0 st stD zeroStats 0 0
        [] [] hnd hfresh)

/-- C6 counterexample: with one already-persisted alert, a dry run still
makes zero store calls but reports `NewOutages = NewAlerts = 1`, while the
real run on the same input and store reports `0`/`0` (it skips the
duplicate) — so dry-run counts do not always equal the real run's. -/
theorem c6_counterexample :
    (runImport noFail 100 singlePageProvider 100 true 3 storeWith1).map
        (fun r => (r.stats.newOutages, r.stats.newAlerts, r.ops)) =
      some (1, 1, [])
    ∧ (runImport noFail 100 singlePageProvider 100 false 3 storeWith1).map
        (fun r => (r.stats.newOutages, r.stats.newAlerts)) =
      some (0, 0) := by
  decide

/-- C6 witness: both parts of the amended statement at a concrete one-page
run from the empty store. -/
theorem c6_witness :
    (runImport noFail 100 singlePageProvider 100 true 3 emptyStore = some cDryRun
      ∧ cDryRun.ops = [])
    ∧ (((collectPages singlePageProvider 100 3 0).flatten.map alertKey).Nodup
      ∧ (∀ al ∈ (collectPages singlePageProvider 100 3 0).flatten,
          alertKey al ∉ emptyStore.alerts.map dKey)
      ∧ Option.map (fun r => (r.stats.newOutages, r.stats.newAlerts))
            (runImport noFail 100 singlePageProvider 100 false 3 emptyStore)
          = Option.map (fun r => (r.stats.newOutages, r.stats.newAlerts))
            (runImport noFail 100 singlePageProvider 100 true 3 emptyStore)) :=
  ⟨⟨by decide,
     c6_dry_run_pure_and_conditionally_equal.1 noFail 100 singlePageProvider 100 3
       emptyStore cDryRun (by decide)⟩,
   by decide, by decide,
   c6_dry_run_pure_and_conditionally_equal.2 100 singlePageProvider 100 3
     emptyStore emptyStore (by decide) (by decide)⟩

/-- C7 counterexample: in the spec's concrete scenario the 500ms inter-page
delay is invoked twice, not once — `time.Sleep` runs at the bottom of every
non-empty-page iteration, including the final page. -/
theorem c7_counterexample :
    (runImport noFail 100 scenarioProvider 2 false 5 emptyStore).map
        RunResult.delays = some 2
    ∧ (runImport noFail 100 scenarioProvider 2 false 5 emptyStore).map
        RunResult.delays ≠ some 1 := by
  decide

/-- C7 (amended): in the concrete scenario (batch size 2; page one = two
alerts with `hasMore = true`, page two = one alert with `hasMore = false`;
no pre-existing alerts) the driver makes exactly 2 fetch calls, invokes the
inter-page delay exactly twice (once after each non-empty page), and reports
`TotalFetched = 3`, `NewOutages = 3`, `NewAlerts = 3`, `Skipped = 0`,
`Errors = 0`. -/
theorem c7_concrete_scenario :
    (runImport noFail 100 scenarioProvider 2 false 5 emptyStore).map
        (fun r => (r.fetchCalls, r.delays, r.stats)) =
      some (2, 2,
        { totalFetched := 3, newOutages := 3, newAlerts := 3, skipped := 0
          errors := 0 }) := by
  decide

/-- C8: with a non-empty requested team filter, the OpsGenie adapter returns
exactly the normalized alerts whose team-id set intersects the filter
(discarded alerts are absent from the returned slice, hence invisible to the
driver's `TotalFetched` and creation statistics and never persisted), while
the returned `hasMore` is still `paging.next != ""`, independent of how many
alerts the filter discarded. -/
theorem c8_opsgenie_team_filter (teamIDs : List String) (resp : OGResponse)
    (h : teamIDs ≠ []) :
    (fetchHistoricalAlerts teamIDs resp).1 =
      (resp.data.filter (fun a => ogMatchesTeams teamIDs a.teams)).map ogNormalize
    ∧ (∀ ca ∈ (fetchHistoricalAlerts teamIDs resp).1,
        ∃ a ∈ resp.data, ogMatchesTeams teamIDs a.teams = true ∧ ca = ogNormalize a)
    ∧ (fetchHistoricalAlerts teamIDs resp).2 = (resp.paging.next != "") := by
  have hb := ogBuildAlerts_eq teamIDs h resp.data
  refine ⟨hb, ?_, rfl⟩
  intro ca hca
  rw [show (fetchHistoricalAlerts teamIDs resp).1 = ogBuildAlerts teamIDs resp.data
      from rfl, hb] at hca
  rcases List.mem_map.mp hca with ⟨a, hmem, hval⟩
  rcases List.mem_filter.mp hmem with ⟨hadata, hmatch⟩
  exact ⟨a, hadata, hmatch, hval.symm⟩

/-- C8 witness: the filter characterization at a concrete response where one
of two alerts matches the requested team. -/
theorem c8_witness :
    (["T1"] : List String) ≠ []
    ∧ ((fetchHistoricalAlerts ["T1"] cOGResp).1 =
        (cOGResp.data.filter (fun a => ogMatchesTeams ["T1"] a.teams)).map ogNormalize
      ∧ (∀ ca ∈ (fetchHistoricalAlerts ["T1"] cOGResp).1,
          ∃ a ∈ cOGResp.data, ogMatchesTeams ["T1"] a.teams = true ∧ ca = ogNormalize a)
      ∧ (fetchHistoricalAlerts ["T1"] cOGResp).2 = (cOGResp.paging.next != "")) :=
  ⟨by decide, c8_opsgenie_team_filter ["T1"] cOGResp (by decide)⟩

/-- C9: a fetch that returns an empty alert list ends the whole run at once —
the loop exits before the statistics update, before any further fetch and
before the inter-page delay — even when that fetch reported
`hasMore = true`; and an OpsGenie page whose alerts are all removed by the
client-side team filter is exactly such an empty page. -/
theorem c9_empty_page_stops_run
    (fx : StoreFx) (now : Nat) (provider : Nat → FetchResult) (batchSize : Nat)
    (dryRun : Bool) (fuel offset : Nat) (st : Store) (stats : ImportStats)
    (fc dc : Nat) (ops : List StoreOp)
    (herr : (provider offset).fetchErr = none)
    (hempty : (provider offset).alerts = []) :
    runImportLoop fx now provider batchSize dryRun (fuel + 1) offset st stats fc dc ops
      = some { store := st, stats := stats, fetchCalls := fc + 1, delays := dc
               ops := ops, runErr := none }
    ∧ ∀ (teamIDs : List String) (resp : OGResponse), teamIDs ≠ [] →
        (∀ a ∈ resp.data, ogMatchesTeams teamIDs a.teams = false) →
        (fetchHistoricalAlerts teamIDs resp).1 = [] := by
  constructor
  · rw [runImportLoop]
    simp [herr, hempty]
  · intro teamIDs resp hne hnomatch
    show ogBuildAlerts teamIDs resp.data = []
    rw [ogBuildAlerts_eq teamIDs hne]
    have hfil : resp.data.filter (fun a => ogMatchesTeams teamIDs a.teams) = [] := by
      rw [List.filter_eq_nil_iff]
      intro a ha
      simp [hnomatch a ha]
    rw [hfil]
    rfl

/-- C9 witness: a concrete empty page with `hasMore = true` stops the run
with nothing changed, and a concrete all-filtered OpsGenie response is an
empty page. -/
theorem c9_witness :
    ((emptyPageMoreProvider 0).fetchErr = none
      ∧ (emptyPageMoreProvider 0).alerts = []
      ∧ (emptyPageMoreProvider 0).hasMore = true)
    ∧ (runImportLoop noFail 100 emptyPageMoreProvider 2 false 4 0 emptyStore
          zeroStats 0 0 []
        = some { store := emptyStore, stats := zeroStats, fetchCalls := 1
                 delays := 0, ops := [], runErr := none }
      ∧ ∀ (teamIDs : List String) (resp : OGResponse), teamIDs ≠ [] →
          (∀ a ∈ resp.data, ogMatchesTeams teamIDs a.teams = false) →
          (fetchHistoricalAlerts teamIDs resp).1 = []) :=
  ⟨⟨by decide, by decide, by decide⟩,
    c9_empty_page_stops_run noFail 100 emptyPageMoreProvider 2 false 3 0 emptyStore
      zeroStats 0 0 [] (by decide) (by decide)⟩

/-- C10: the canonical `TeamName` produced by either adapter's normalization
is the first listed team's display name (PagerDuty `summary`, OpsGenie
`name`) when a team is present, and the literal `"unknown"` when the
provider returned no teams. -/
theorem c10_team_name_first_or_unknown (i : PDIncident) (a : OGAlertData) :
    (pdNormalize i).teamName = ((i.teams.head?).map PDTeam.summary).getD "unknown"
    ∧ (ogNormalize a).teamName = ((a.teams.head?).map OGTeam.name).getD "unknown" := by
  constructor
  · cases ht : i.teams with
    | nil => simp [pdNormalize, pdTeamName, ht]
    | cons t ts => simp [pdNormalize, pdTeamName, ht]
  · cases ht : a.teams with
    | nil => simp [ogNormalize, ogTeamName, ht]
    | cons t ts => simp [ogNormalize, ogTeamName, ht]

end Outalator
